import Mathlib

/-!
Shallow embedding of the subscriber-preference resolution core of the
repository: the single-workflow usecase
(`get-subscriber-template-preference.usecase.ts`) and the batch usecase
(`get-subscriber-preference.usecase.ts`).

Pure functions of the source become Lean functions; repository
collaborators (storage lookups) are passed in explicitly as a `Repos`
record of functions; the thrown `ApiException` becomes `Except.error`.
-/

namespace Novu

/-- `ChannelTypeEnum`: the closed set of delivery channels. -/
inductive Channel where
  | email
  | sms
  | in_app
  | chat
  | push
deriving DecidableEq, Repr

/-- All channels, in the declaration order of the TS enum. -/
def allChannels : List Channel :=
  [Channel.email, Channel.sms, Channel.in_app, Channel.chat, Channel.push]

/-- `IPreferenceChannels`: a partial map Channel → bool.  Each field is
`none` when the key is absent from the JS object and `some b` when the key
is present with value `b`. -/
structure PreferenceChannels where
  email : Option Bool := none
  sms : Option Bool := none
  in_app : Option Bool := none
  chat : Option Bool := none
  push : Option Bool := none
deriving DecidableEq, Repr

/-- Key lookup on a `PreferenceChannels` object. -/
def PreferenceChannels.get (p : PreferenceChannels) : Channel → Option Bool
  | Channel.email => p.email
  | Channel.sms => p.sms
  | Channel.in_app => p.in_app
  | Channel.chat => p.chat
  | Channel.push => p.push

/-- `Object.keys`: the channels present in the map. -/
def PreferenceChannels.keys (p : PreferenceChannels) : List Channel :=
  allChannels.filter (fun c => (p.get c).isSome)

/-- `Object.assign({}, base, override)`: keys of `override` win over keys
of `base`; keys absent from both stay absent. -/
def PreferenceChannels.assign (base override : PreferenceChannels) : PreferenceChannels :=
  { email := override.email <|> base.email
    sms := override.sms <|> base.sms
    in_app := override.in_app <|> base.in_app
    chat := override.chat <|> base.chat
    push := override.push <|> base.push }

/-- The message template referenced by a step (`step.template`), carrying
its resolved channel `type`. -/
structure MessageTemplateRef where
  type : Channel
deriving DecidableEq, Repr

/-- A workflow step.  `active` is `none` when the attribute is absent or
null in the entity; `template` is the optionally populated message
template; `templateId` is the step's `_templateId` foreign key. -/
structure Step where
  active : Option Bool
  template : Option MessageTemplateRef
  templateId : String
deriving DecidableEq, Repr

/-- A message template entity as returned by
`messageTemplateRepository.find` (`_id` and `type`). -/
structure MessageTemplateEntity where
  id : String
  type : Channel
deriving DecidableEq, Repr

/-- `NotificationTemplateEntity` (the workflow): `_id`, `name`, optional
`critical`, ordered steps, optional `preferenceSettings`. -/
structure NotificationTemplate where
  id : String
  name : String
  critical : Option Bool
  steps : List Step
  preferenceSettings : Option PreferenceChannels
deriving DecidableEq, Repr

/-- `SubscriberEntity`, reduced to the `_id` used for the stored-preference
lookup. -/
structure Subscriber where
  id : String
deriving DecidableEq, Repr

/-- The stored `SubscriberPreference` record: top-level `enabled` flag
(`none` when absent) and optional channel map. -/
structure SubscriberPreference where
  enabled : Option Bool
  channels : Option PreferenceChannels
deriving DecidableEq, Repr

/-- `IGetSubscriberPreferenceTemplateResponse`. -/
structure TemplateConfiguration where
  id : String
  name : String
  critical : Bool
deriving DecidableEq, Repr

/-- `IPreferenceOverride.source`. -/
inductive OverrideSource where
  | template
  | subscriber
deriving DecidableEq, Repr

/-- `IPreferenceOverride`: per-channel provenance metadata declared by the
response interface. -/
structure PreferenceOverride where
  channel : Channel
  source : OverrideSource
deriving DecidableEq, Repr

/-- The `preference` part of `ISubscriberPreferenceResponse`.  The declared
interface requires an `overrides` field; the implementation's `getResponse`
builds the object literal without it, so the field is modelled as an
`Option` that records whether the property is present. -/
structure PreferenceResult where
  enabled : Bool
  channels : PreferenceChannels
  overrides : Option (List PreferenceOverride)
deriving DecidableEq, Repr

/-- `ISubscriberPreferenceResponse`. -/
structure SubscriberPreferenceResponse where
  template : TemplateConfiguration
  preference : PreferenceResult
deriving DecidableEq, Repr

/-- `GetSubscriberTemplatePreferenceCommand`. -/
structure Command where
  environmentId : String
  subscriberId : String
  template : NotificationTemplate
  subscriber : Option Subscriber
deriving DecidableEq, Repr

/-- The repository collaborators injected into the usecases, as functions.
`findMessageTemplates` models `messageTemplateRepository.find` keyed by
environment id and the `$in` id list; `getActiveList` models
`notificationTemplateRepository.getActiveList`. -/
structure Repos where
  findSubscriberById : String → String → Option Subscriber
  findStoredPreference : String → String → String → Option SubscriberPreference
  findMessageTemplates : String → List String → List MessageTemplateEntity
  getActiveList : String → String → List NotificationTemplate

/-- First-occurrence deduplication, as performed both by the source's
`reduce` with an `includes` guard and by `[...new Set(xs)]` (JS `Set`
preserves insertion order). -/
def dedupKeepFirst {α : Type} [BEq α] (xs : List α) : List α :=
  xs.foldl (fun list c => if list.contains c then list else list ++ [c]) []

/-- The spec's wording of the primary path — "collect `step.channelType`
preserving first-seen order, dropping duplicates" — as a standalone
second definition, to be compared with the source's accumulator-based
`dedupKeepFirst`: keep the head at its (first) position and drop every
later copy of it from the deduplicated tail.  A last-occurrence
deduplication differs from it already on `[a, b, a]`. -/
def firstSeenDedup {α : Type} [BEq α] : List α → List α
  | [] => []
  | a :: l => a :: (firstSeenDedup l).filter (fun b => !(a == b))

/-- `queryActiveChannels`: filter the workflow's steps to those with
`active === true`; if every active step carries its message template, map
`step.template.type` deduplicating while preserving first-seen order
(the branch guard guarantees the `filterMap` drops nothing); otherwise
fall back to a batched message-template lookup by the active steps'
`_templateId`s and deduplicate the returned types. -/
def queryActiveChannels (find : String → List String → List MessageTemplateEntity)
    (environmentId : String) (template : NotificationTemplate) : List Channel :=
  let activeSteps := template.steps.filter (fun step => step.active == some true)
  let stepMissingMessageTemplate := activeSteps.any (fun step => step.template.isNone)
  if stepMissingMessageTemplate then
    let messageIds := activeSteps.map (fun step => step.templateId)
    let messageTemplates := find environmentId messageIds
    dedupKeepFirst (messageTemplates.map (fun m => m.type))
  else
    dedupKeepFirst (activeSteps.filterMap (fun step => step.template.map (fun t => t.type)))

/-- `filterActiveChannels`: copy the preference map and delete every key
that is not an active channel (`Object.assign({}, preference)` of an
absent map is the empty object). -/
def filterActiveChannels (activeChannels : List Channel)
    (preference : Option PreferenceChannels) : PreferenceChannels :=
  match preference with
  | none => {}
  | some p =>
    { email := if activeChannels.contains Channel.email then p.email else none
      sms := if activeChannels.contains Channel.sms then p.sms else none
      in_app := if activeChannels.contains Channel.in_app then p.in_app else none
      chat := if activeChannels.contains Channel.chat then p.chat else none
      push := if activeChannels.contains Channel.push then p.push else none }

/-- `mapResponseTemplate`: `critical` defaults to `true` when null. -/
def mapResponseTemplate (template : NotificationTemplate) : TemplateConfiguration :=
  { id := template.id
    name := template.name
    critical := template.critical.getD true }

/-- `subscriberPreferenceIsWhole`: false when the channel map is absent,
else compare the map's key COUNT with the active-channel count (the
callers always pass a real array for `activeChannels`, so the null guard
on it never fires). -/
def subscriberPreferenceIsWhole (preference : Option PreferenceChannels)
    (activeChannels : List Channel) : Bool :=
  match preference with
  | none => false
  | some p => p.keys.length == activeChannels.length

/-- `getResponse`: shape the response; the object literal defines only
`enabled` and `channels`, leaving the declared `overrides` property
absent. -/
def getResponse (responseTemplate : TemplateConfiguration)
    (subscriberPreferenceEnabled : Bool)
    (subscriberPreferenceChannels : Option PreferenceChannels)
    (activeChannels : List Channel) : SubscriberPreferenceResponse :=
  { template := responseTemplate
    preference :=
      { enabled := subscriberPreferenceEnabled
        channels := filterActiveChannels activeChannels subscriberPreferenceChannels
        overrides := none } }

/-- `getNoSettingFallback`: the hard-coded all-true map, pruned. -/
def getNoSettingFallback (template : TemplateConfiguration)
    (activeChannels : List Channel) : SubscriberPreferenceResponse :=
  getResponse template true
    (some { email := some true, sms := some true, in_app := some true,
            chat := some true, push := some true })
    activeChannels

/-- Subscriber resolution: `command.subscriber ?? findBySubscriberId(...)`. -/
def resolveSubscriber (repos : Repos) (command : Command) : Option Subscriber :=
  command.subscriber <|> repos.findSubscriberById command.environmentId command.subscriberId

/-- The stored-preference lookup `subscriberPreferenceRepository.findOne`
keyed by environment, subscriber `_id` and template `_id`. -/
def storedPreferenceOf (repos : Repos) (command : Command)
    (subscriber : Subscriber) : Option SubscriberPreference :=
  repos.findStoredPreference command.environmentId subscriber.id command.template.id

/-- The body of `GetSubscriberTemplatePreference.execute` after the
subscriber has been resolved: wholeness short-circuit, then the
template-preference branches, then the no-setting fallback. -/
def executeResolved (repos : Repos) (command : Command)
    (subscriber : Subscriber) : SubscriberPreferenceResponse :=
  let activeChannels :=
    queryActiveChannels repos.findMessageTemplates command.environmentId command.template
  let subscriberPreference := storedPreferenceOf repos command subscriber
  let responseTemplate := mapResponseTemplate command.template
  let subscriberPreferenceEnabled := (subscriberPreference.bind (fun p => p.enabled)).getD true
  let storedChannels := subscriberPreference.bind (fun p => p.channels)
  if subscriberPreferenceIsWhole storedChannels activeChannels then
    getResponse responseTemplate subscriberPreferenceEnabled storedChannels activeChannels
  else
    match command.template.preferenceSettings, storedChannels with
    | some templatePreference, none =>
      getResponse responseTemplate subscriberPreferenceEnabled (some templatePreference)
        activeChannels
    | some templatePreference, some sc =>
      getResponse responseTemplate subscriberPreferenceEnabled
        (some (PreferenceChannels.assign templatePreference sc)) activeChannels
    | none, _ => getNoSettingFallback responseTemplate activeChannels

/-- `GetSubscriberTemplatePreference.execute`: resolve the subscriber
(passed-in entity or lookup), throw `ApiException` when absent, otherwise
produce the merged response. -/
def execute (repos : Repos) (command : Command) :
    Except String SubscriberPreferenceResponse :=
  match resolveSubscriber repos command with
  | none => Except.error ("Subscriber " ++ command.subscriberId ++ " not found")
  | some subscriber => Except.ok (executeResolved repos command subscriber)

/-- `GetSubscriberPreferenceCommand`. -/
structure BatchCommand where
  organizationId : String
  environmentId : String
  subscriberId : String
deriving DecidableEq, Repr

/-- The per-template command built inside the batch usecase's `map`
(no subscriber entity is passed along). -/
def batchItemCommand (command : BatchCommand)
    (template : NotificationTemplate) : Command :=
  { environmentId := command.environmentId
    subscriberId := command.subscriberId
    template := template
    subscriber := none }

/-- `Promise.all` over already-started computations: fail if any item
fails, otherwise collect the results in order. -/
def promiseAll {ε α : Type} : List (Except ε α) → Except ε (List α)
  | [] => Except.ok []
  | Except.error e :: _ => Except.error e
  | Except.ok a :: xs =>
    match promiseAll xs with
    | Except.error e => Except.error e
    | Except.ok as => Except.ok (a :: as)

/-- `GetSubscriberPreference.execute`: fetch the active workflow list and
resolve each workflow's preference in order.  The admin lookup and the
analytics `track` call do not contribute to the returned value (the
emission is fire-and-forget) and are therefore not modelled. -/
def batchExecute (repos : Repos) (command : BatchCommand) :
    Except String (List SubscriberPreferenceResponse) :=
  let templateList := repos.getActiveList command.organizationId command.environmentId
  promiseAll (templateList.map (fun template => execute repos (batchItemCommand command template)))

/-- Channel maps with every field hard-coded to `true`, the backward
compatibility fallback literal of `getNoSettingFallback`. -/
def allEnabledChannels : PreferenceChannels :=
  { email := some true, sms := some true, in_app := some true,
    chat := some true, push := some true }

/-! Concrete instances used to witness the theorems below. -/

/-- A subscriber entity with a fixed storage id. -/
def exSubscriber : Subscriber := { id := "subscriber-mongo-id" }

/-- An active email step with its message template populated. -/
def emailStep : Step :=
  { active := some true, template := some { type := Channel.email }, templateId := "mt-email" }

/-- An active sms step with its message template populated. -/
def smsStep : Step :=
  { active := some true, template := some { type := Channel.sms }, templateId := "mt-sms" }

/-- A DISABLED push step: its channel must never contribute. -/
def inactivePushStep : Step :=
  { active := some false, template := some { type := Channel.push }, templateId := "mt-push" }

/-- A message-template repository that returns nothing. -/
def emptyFind : String → List String → List MessageTemplateEntity := fun _ _ => []

/-- An active-workflow list that returns nothing. -/
def emptyActiveList : String → String → List NotificationTemplate := fun _ _ => []

/-- Workflow for the wholeness scenario: one active email step, no default
preference. -/
def c1Template : NotificationTemplate :=
  { id := "tpl-1", name := "wf", critical := none, steps := [emailStep],
    preferenceSettings := none }

/-- Stored preference whose single key (`push`) is NOT an active channel
but whose key count (1) matches the active-channel count (1). -/
def c1Stored : SubscriberPreference :=
  { enabled := some true, channels := some { push := some true } }

def c1Repos : Repos :=
  { findSubscriberById := fun _ _ => some exSubscriber
    findStoredPreference := fun _ _ _ => some c1Stored
    findMessageTemplates := emptyFind
    getActiveList := emptyActiveList }

def c1Command : Command :=
  { environmentId := "env", subscriberId := "sub", template := c1Template, subscriber := none }

/-- Workflow with one active email step and no default preference. -/
def c2Template : NotificationTemplate :=
  { id := "tpl-2", name := "wf2", critical := none, steps := [emailStep],
    preferenceSettings := none }

/-- Stored preference that disables the workflow but carries no channel
map, driving the resolution into the no-setting fallback. -/
def c2Repos : Repos :=
  { findSubscriberById := fun _ _ => some exSubscriber
    findStoredPreference := fun _ _ _ => some { enabled := some false, channels := none }
    findMessageTemplates := emptyFind
    getActiveList := emptyActiveList }

def c2Command : Command :=
  { environmentId := "env", subscriberId := "sub", template := c2Template, subscriber := none }

/-- Workflow default preference for the partial-merge scenario. -/
def c4Default : PreferenceChannels := { email := some true, sms := some false }

/-- Partial stored channel map (1 key, 2 active channels). -/
def c4Stored : PreferenceChannels := { sms := some true }

def c4Template : NotificationTemplate :=
  { id := "tpl-4", name := "wf4", critical := none, steps := [emailStep, smsStep],
    preferenceSettings := some c4Default }

def c4Repos : Repos :=
  { findSubscriberById := fun _ _ => some exSubscriber
    findStoredPreference := fun _ _ _ => some { enabled := some true, channels := some c4Stored }
    findMessageTemplates := emptyFind
    getActiveList := emptyActiveList }

def c4Command : Command :=
  { environmentId := "env", subscriberId := "sub", template := c4Template, subscriber := none }

/-- Workflow with neither stored nor default preference. -/
def c5Template : NotificationTemplate :=
  { id := "tpl-5", name := "wf5", critical := none, steps := [emailStep],
    preferenceSettings := none }

def c5Repos : Repos :=
  { findSubscriberById := fun _ _ => some exSubscriber
    findStoredPreference := fun _ _ _ => none
    findMessageTemplates := emptyFind
    getActiveList := emptyActiveList }

def c5Command : Command :=
  { environmentId := "env", subscriberId := "sub", template := c5Template, subscriber := none }

/-- Workflow with a duplicated active channel and a disabled step. -/
def c6Template : NotificationTemplate :=
  { id := "tpl-6", name := "wf6", critical := none,
    steps := [emailStep, smsStep, inactivePushStep, emailStep],
    preferenceSettings := none }

/-- Environment where the subscriber lookup finds nobody. -/
def c8Repos : Repos :=
  { findSubscriberById := fun _ _ => none
    findStoredPreference := fun _ _ _ => none
    findMessageTemplates := emptyFind
    getActiveList := emptyActiveList }

def c8Command : Command :=
  { environmentId := "env", subscriberId := "ghost", template := c5Template, subscriber := none }

def c9TemplateA : NotificationTemplate :=
  { id := "tpl-9a", name := "wf9a", critical := none, steps := [emailStep],
    preferenceSettings := none }

def c9TemplateB : NotificationTemplate :=
  { id := "tpl-9b", name := "wf9b", critical := none, steps := [smsStep],
    preferenceSettings := none }

def c9Repos : Repos :=
  { findSubscriberById := fun _ _ => some exSubscriber
    findStoredPreference := fun _ _ _ => none
    findMessageTemplates := emptyFind
    getActiveList := fun _ _ => [c9TemplateA, c9TemplateB] }

def c9Batch : BatchCommand :=
  { organizationId := "org", environmentId := "env", subscriberId := "sub" }

/-- The two responses the batch resolution produces for `c9Repos`. -/
def c9Results : List SubscriberPreferenceResponse :=
  [{ template := { id := "tpl-9a", name := "wf9a", critical := true },
     preference := { enabled := true, channels := { email := some true }, overrides := none } },
   { template := { id := "tpl-9b", name := "wf9b", critical := true },
     preference := { enabled := true, channels := { sms := some true }, overrides := none } }]

/-- Workflow containing a disabled step, for the strict-equality filter. -/
def c10Template : NotificationTemplate :=
  { id := "tpl-10", name := "wf10", critical := none, steps := [emailStep, inactivePushStep],
    preferenceSettings := none }

section DedupLemmas

theorem firstSeenDedup_cons {α : Type} [BEq α] (a : α) (l : List α) :
    firstSeenDedup (a :: l) = a :: (firstSeenDedup l).filter (fun b => !(a == b)) := rfl

variable {α : Type} [BEq α] [LawfulBEq α]

theorem dedupFold_nodup (xs : List α) (acc : List α) (hacc : acc.Nodup) :
    (xs.foldl (fun list c => if list.contains c then list else list ++ [c]) acc).Nodup := by
  induction xs generalizing acc with
  | nil => exact hacc
  | cons x xs ih =>
    simp only [List.foldl_cons]
    rcases hc : acc.contains x with _ | _
    · have hx : x ∉ acc := by simpa using hc
      rw [if_neg (by simp [hc])]
      exact ih (acc ++ [x]) (by simp [List.nodup_append, hacc, hx])
    · exact ih acc hacc

theorem dedupFold_mem (xs : List α) (acc : List α) (a : α) :
    a ∈ xs.foldl (fun list c => if list.contains c then list else list ++ [c]) acc ↔
      a ∈ acc ∨ a ∈ xs := by
  induction xs generalizing acc with
  | nil => simp
  | cons x xs ih =>
    simp only [List.foldl_cons]
    rcases hc : acc.contains x with _ | _
    · rw [if_neg (by simp [hc]), ih]
      simp only [List.mem_append, List.mem_singleton, List.mem_cons]
      tauto
    · have hx : x ∈ acc := by simpa using hc
      constructor
      · intro h
        rcases (ih acc).mp h with h | h
        · exact Or.inl h
        · exact Or.inr (List.mem_cons_of_mem x h)
      · intro h
        refine (ih acc).mpr ?_
        rcases h with h | h
        · exact Or.inl h
        · rcases List.mem_cons.mp h with rfl | h
          · exact Or.inl hx
          · exact Or.inr h

theorem dedupFold_sublist (xs : List α) (acc : List α) :
    ∃ ys, xs.foldl (fun list c => if list.contains c then list else list ++ [c]) acc =
        acc ++ ys ∧ List.Sublist ys xs := by
  induction xs generalizing acc with
  | nil => exact ⟨[], by simp⟩
  | cons x xs ih =>
    simp only [List.foldl_cons]
    rcases hc : acc.contains x with _ | _
    · obtain ⟨ys, hys, hsub⟩ := ih (acc ++ [x])
      refine ⟨x :: ys, ?_, List.Sublist.cons₂ x hsub⟩
      rw [if_neg (by simp [hc]), hys, List.append_assoc]
      rfl
    · obtain ⟨ys, hys, hsub⟩ := ih acc
      exact ⟨ys, hys, List.Sublist.cons x hsub⟩

theorem dedupKeepFirst_nodup (xs : List α) : (dedupKeepFirst xs).Nodup :=
  dedupFold_nodup xs [] List.nodup_nil

theorem dedupKeepFirst_sublist (xs : List α) : List.Sublist (dedupKeepFirst xs) xs := by
  obtain ⟨ys, hys, hsub⟩ := dedupFold_sublist xs []
  rw [dedupKeepFirst, hys, List.nil_append]
  exact hsub

theorem mem_dedupKeepFirst (a : α) (xs : List α) : a ∈ dedupKeepFirst xs ↔ a ∈ xs := by
  rw [dedupKeepFirst, dedupFold_mem]
  simp

theorem not_contains_append_singleton (acc : List α) (x b : α) :
    (!((acc ++ [x]).contains b)) = (!(acc.contains b) && !(x == b)) := by
  rcases hm : (acc ++ [x]).contains b with _ | _
  · have h1 : b ∉ acc ++ [x] := by simpa using hm
    rw [List.mem_append, List.mem_singleton] at h1
    push_neg at h1
    obtain ⟨h2, h3⟩ := h1
    have e2 : (x == b) = false := beq_eq_false_iff_ne.mpr (fun h => h3 h.symm)
    simp [h2, e2]
  · have h1 : b ∈ acc ++ [x] := by simpa using hm
    rw [List.mem_append, List.mem_singleton] at h1
    rcases h1 with h2 | h2
    · simp [h2]
    · subst h2
      simp

theorem seen_filter_eq (acc : List α) (x b : α) (hc : acc.contains x = true) :
    (!(acc.contains b)) = (!(acc.contains b) && !(x == b)) := by
  rcases hxb : x == b with _ | _
  · simp
  · have hx : x = b := eq_of_beq hxb
    have hmem : b ∈ acc := hx ▸ (show x ∈ acc by simpa using hc)
    simp [hmem]

theorem dedupFold_eq_firstSeenDedup (xs : List α) (acc : List α) :
    xs.foldl (fun list c => if list.contains c then list else list ++ [c]) acc =
      acc ++ (firstSeenDedup xs).filter (fun b => !(acc.contains b)) := by
  induction xs generalizing acc with
  | nil => simp [firstSeenDedup]
  | cons x xs ih =>
    simp only [List.foldl_cons]
    rcases hc : acc.contains x with _ | _
    · have hxm : x ∉ acc := by simpa using hc
      rw [if_neg (by simp [hc])]
      rw [ih (acc ++ [x])]
      rw [firstSeenDedup_cons, List.filter_cons_of_pos (by simp [hxm]), List.filter_filter]
      have hfc : (firstSeenDedup xs).filter (fun b => !((acc ++ [x]).contains b)) =
          (firstSeenDedup xs).filter (fun b => !(acc.contains b) && !(x == b)) :=
        List.filter_congr (fun b _ => not_contains_append_singleton acc x b)
      rw [hfc, List.append_assoc, List.singleton_append]
    · have hmem : x ∈ acc := by simpa using hc
      show xs.foldl (fun list c => if list.contains c then list else list ++ [c]) acc =
        acc ++ (firstSeenDedup (x :: xs)).filter (fun b => !(acc.contains b))
      rw [ih acc]
      rw [firstSeenDedup_cons, List.filter_cons_of_neg (by simp [hmem]), List.filter_filter]
      have hfc : (firstSeenDedup xs).filter (fun b => !(acc.contains b) && !(x == b)) =
          (firstSeenDedup xs).filter (fun b => !(acc.contains b)) :=
        List.filter_congr (fun b _ => (seen_filter_eq acc x b hc).symm)
      rw [hfc]

theorem dedupKeepFirst_eq_firstSeenDedup (xs : List α) :
    dedupKeepFirst xs = firstSeenDedup xs := by
  rw [dedupKeepFirst, dedupFold_eq_firstSeenDedup]
  simp

end DedupLemmas

theorem get_filterActiveChannels (act : List Channel) (p : PreferenceChannels) (c : Channel) :
    (filterActiveChannels act (some p)).get c =
      if act.contains c then p.get c else none := by
  cases c <;> rfl

theorem get_filterActiveChannels_none (act : List Channel) (c : Channel) :
    (filterActiveChannels act none).get c = none := by
  cases c <;> rfl

theorem get_assign (d s : PreferenceChannels) (c : Channel) :
    (PreferenceChannels.assign d s).get c = (s.get c <|> d.get c) := by
  cases c <;> rfl

theorem executeResolved_of_whole (repos : Repos) (command : Command) (subscriber : Subscriber)
    (h : subscriberPreferenceIsWhole
        ((storedPreferenceOf repos command subscriber).bind (fun sp => sp.channels))
        (queryActiveChannels repos.findMessageTemplates command.environmentId
          command.template) = true) :
    executeResolved repos command subscriber =
      getResponse (mapResponseTemplate command.template)
        (((storedPreferenceOf repos command subscriber).bind (fun sp => sp.enabled)).getD true)
        ((storedPreferenceOf repos command subscriber).bind (fun sp => sp.channels))
        (queryActiveChannels repos.findMessageTemplates command.environmentId
          command.template) := by
  simp only [executeResolved, h, if_true]

theorem executeResolved_of_template_only (repos : Repos) (command : Command)
    (subscriber : Subscriber) (d : PreferenceChannels)
    (hW : subscriberPreferenceIsWhole
        ((storedPreferenceOf repos command subscriber).bind (fun sp => sp.channels))
        (queryActiveChannels repos.findMessageTemplates command.environmentId
          command.template) = false)
    (hps : command.template.preferenceSettings = some d)
    (hsc : (storedPreferenceOf repos command subscriber).bind (fun sp => sp.channels) = none) :
    executeResolved repos command subscriber =
      getResponse (mapResponseTemplate command.template)
        (((storedPreferenceOf repos command subscriber).bind (fun sp => sp.enabled)).getD true)
        (some d)
        (queryActiveChannels repos.findMessageTemplates command.environmentId
          command.template) := by
  rw [hsc] at hW
  simp only [executeResolved, hsc, hps, hW, Bool.false_eq_true, if_false]

theorem executeResolved_of_merge (repos : Repos) (command : Command)
    (subscriber : Subscriber) (d s : PreferenceChannels)
    (hW : subscriberPreferenceIsWhole
        ((storedPreferenceOf repos command subscriber).bind (fun sp => sp.channels))
        (queryActiveChannels repos.findMessageTemplates command.environmentId
          command.template) = false)
    (hps : command.template.preferenceSettings = some d)
    (hsc : (storedPreferenceOf repos command subscriber).bind (fun sp => sp.channels) = some s) :
    executeResolved repos command subscriber =
      getResponse (mapResponseTemplate command.template)
        (((storedPreferenceOf repos command subscriber).bind (fun sp => sp.enabled)).getD true)
        (some (PreferenceChannels.assign d s))
        (queryActiveChannels repos.findMessageTemplates command.environmentId
          command.template) := by
  rw [hsc] at hW
  simp only [executeResolved, hsc, hps, hW, Bool.false_eq_true, if_false]

theorem executeResolved_of_fallback (repos : Repos) (command : Command)
    (subscriber : Subscriber)
    (hW : subscriberPreferenceIsWhole
        ((storedPreferenceOf repos command subscriber).bind (fun sp => sp.channels))
        (queryActiveChannels repos.findMessageTemplates command.environmentId
          command.template) = false)
    (hps : command.template.preferenceSettings = none) :
    executeResolved repos command subscriber =
      getNoSettingFallback (mapResponseTemplate command.template)
        (queryActiveChannels repos.findMessageTemplates command.environmentId
          command.template) := by
  cases hsc : (storedPreferenceOf repos command subscriber).bind (fun sp => sp.channels) with
  | none =>
    rw [hsc] at hW
    simp only [executeResolved, hsc, hps, hW, Bool.false_eq_true, if_false]
  | some s =>
    rw [hsc] at hW
    simp only [executeResolved, hsc, hps, hW, Bool.false_eq_true, if_false]

theorem queryActiveChannels_congr (find : String → List String → List MessageTemplateEntity)
    (e : String) (t u : NotificationTemplate)
    (h : t.steps.filter (fun step => step.active == some true) =
      u.steps.filter (fun step => step.active == some true)) :
    queryActiveChannels find e t = queryActiveChannels find e u := by
  simp only [queryActiveChannels, h]

theorem executeResolved_channels_shape (repos : Repos) (command : Command)
    (subscriber : Subscriber) :
    ∃ pc, (executeResolved repos command subscriber).preference.channels =
      filterActiveChannels
        (queryActiveChannels repos.findMessageTemplates command.environmentId command.template)
        pc := by
  rcases hW : subscriberPreferenceIsWhole
      ((storedPreferenceOf repos command subscriber).bind (fun sp => sp.channels))
      (queryActiveChannels repos.findMessageTemplates command.environmentId command.template)
    with _ | _
  · cases hps : command.template.preferenceSettings with
    | none =>
      exact ⟨some allEnabledChannels,
        by rw [executeResolved_of_fallback repos command subscriber hW hps]; rfl⟩
    | some d =>
      cases hsc : (storedPreferenceOf repos command subscriber).bind (fun sp => sp.channels) with
      | none =>
        exact ⟨some d,
          by rw [executeResolved_of_template_only repos command subscriber d hW hps hsc]; rfl⟩
      | some s =>
        exact ⟨some (PreferenceChannels.assign d s),
          by rw [executeResolved_of_merge repos command subscriber d s hW hps hsc]; rfl⟩
  · exact ⟨(storedPreferenceOf repos command subscriber).bind (fun sp => sp.channels),
      by rw [executeResolved_of_whole repos command subscriber hW]; rfl⟩

theorem executeResolved_overrides_none (repos : Repos) (command : Command)
    (subscriber : Subscriber) :
    (executeResolved repos command subscriber).preference.overrides = none := by
  rcases hW : subscriberPreferenceIsWhole
      ((storedPreferenceOf repos command subscriber).bind (fun sp => sp.channels))
      (queryActiveChannels repos.findMessageTemplates command.environmentId command.template)
    with _ | _
  · cases hps : command.template.preferenceSettings with
    | none => rw [executeResolved_of_fallback repos command subscriber hW hps]; rfl
    | some d =>
      cases hsc : (storedPreferenceOf repos command subscriber).bind (fun sp => sp.channels) with
      | none => rw [executeResolved_of_template_only repos command subscriber d hW hps hsc]; rfl
      | some s => rw [executeResolved_of_merge repos command subscriber d s hW hps hsc]; rfl
  · rw [executeResolved_of_whole repos command subscriber hW]; rfl

theorem promiseAll_ok {ε α : Type} (xs : List (Except ε α)) (ys : List α)
    (h : promiseAll xs = Except.ok ys) :
    ys.length = xs.length ∧
      ∀ i (hx : i < xs.length) (hy : i < ys.length),
        xs.get ⟨i, hx⟩ = Except.ok (ys.get ⟨i, hy⟩) := by
  induction xs generalizing ys with
  | nil =>
    simp only [promiseAll] at h
    injection h with h
    subst h
    exact ⟨rfl, fun i hx _ => absurd hx (by simp)⟩
  | cons x xs ih =>
    cases x with
    | error e =>
      simp only [promiseAll] at h
      exact Except.noConfusion h
    | ok a =>
      simp only [promiseAll] at h
      cases hrec : promiseAll xs with
      | error e =>
        rw [hrec] at h
        exact Except.noConfusion h
      | ok as =>
        rw [hrec] at h
        injection h with h
        subst h
        obtain ⟨hlen, hget⟩ := ih as hrec
        refine ⟨by simp [hlen], ?_⟩
        intro i hx hy
        cases i with
        | zero => rfl
        | succ n => exact hget n (by simpa using hx) (by simpa using hy)

/-- C1: if the stored channel map exists and its key count equals the
active-channel count, the response is the stored map pruned to the active
channels, and the result is independent of the workflow's default
preference (for every value of `preferenceSettings`, including key sets
disjoint from the active channels, where pruning drops every key). -/
theorem wholeness_short_circuit (repos : Repos) (command : Command)
    (subscriber : Subscriber) (p : PreferenceChannels)
    (hsub : resolveSubscriber repos command = some subscriber)
    (hch : (storedPreferenceOf repos command subscriber).bind (fun sp => sp.channels) = some p)
    (hlen : p.keys.length =
      (queryActiveChannels repos.findMessageTemplates command.environmentId
        command.template).length) :
    ∀ ps : Option PreferenceChannels,
      execute repos
          { command with template := { command.template with preferenceSettings := ps } } =
        Except.ok (getResponse (mapResponseTemplate command.template)
          (((storedPreferenceOf repos command subscriber).bind (fun sp => sp.enabled)).getD true)
          (some p)
          (queryActiveChannels repos.findMessageTemplates command.environmentId
            command.template)) := by
  intro ps
  have hsub2 : resolveSubscriber repos
      { command with template := { command.template with preferenceSettings := ps } } =
      some subscriber := hsub
  have hch2 : (storedPreferenceOf repos
      { command with template := { command.template with preferenceSettings := ps } }
      subscriber).bind (fun sp => sp.channels) = some p := hch
  have hW : subscriberPreferenceIsWhole
      ((storedPreferenceOf repos
        { command with template := { command.template with preferenceSettings := ps } }
        subscriber).bind (fun sp => sp.channels))
      (queryActiveChannels repos.findMessageTemplates
        ({ command with
            template := { command.template with preferenceSettings := ps } }).environmentId
        ({ command with
            template := { command.template with preferenceSettings := ps } }).template) =
      true := by
    rw [hch2]
    simp only [subscriberPreferenceIsWhole]
    have hq : queryActiveChannels repos.findMessageTemplates
        ({ command with
            template := { command.template with preferenceSettings := ps } }).environmentId
        ({ command with
            template := { command.template with preferenceSettings := ps } }).template =
        queryActiveChannels repos.findMessageTemplates command.environmentId
          command.template := rfl
    rw [hq, ← hlen]
    exact beq_self_eq_true p.keys.length
  simp only [execute, hsub2]
  rw [executeResolved_of_whole repos
    { command with template := { command.template with preferenceSettings := ps } }
    subscriber hW]
  rw [hch2]
  rfl

/-- C1 witness: one active channel (email), stored map `{push: true}` with
matching key count but a disjoint key; the default `{email: false}` is
ignored and pruning empties the map. -/
theorem wholeness_short_circuit_witness :
    execute c1Repos
        { c1Command with template :=
          { c1Command.template with preferenceSettings := some { email := some false } } } =
      Except.ok { template := { id := "tpl-1", name := "wf", critical := true },
                  preference := { enabled := true, channels := {}, overrides := none } } :=
  wholeness_short_circuit c1Repos c1Command exSubscriber { push := some true }
    rfl rfl rfl (some { email := some false })

/-- C2 counterexample: a stored preference exists with `enabled = false`
and no channel map, the workflow has no default preference; the code
answers `enabled = true`, contradicting the claim that `enabled` always
reflects the stored flag on every branch. -/
theorem enabled_flag_counterexample :
    (c2Repos.findStoredPreference "env" exSubscriber.id "tpl-2").bind
        (fun sp => sp.enabled) = some false ∧
    (execute c2Repos c2Command).map (fun r => r.preference.enabled) = Except.ok true :=
  ⟨rfl, rfl⟩

/-- C2 amended: `enabled` equals the stored flag (defaulting to true) on
the wholeness branch and on both branches where a default preference
exists; on the no-default fallback branch it is hard-coded `true`
regardless of the stored flag. -/
theorem enabled_flag_amended (repos : Repos) (command : Command) (subscriber : Subscriber)
    (hsub : resolveSubscriber repos command = some subscriber) :
    (execute repos command).map (fun r => r.preference.enabled) =
      Except.ok
        (if subscriberPreferenceIsWhole
              ((storedPreferenceOf repos command subscriber).bind (fun sp => sp.channels))
              (queryActiveChannels repos.findMessageTemplates command.environmentId
                command.template)
            || command.template.preferenceSettings.isSome
          then ((storedPreferenceOf repos command subscriber).bind (fun sp => sp.enabled)).getD
            true
          else true) := by
  simp only [execute, hsub, Except.map]
  rcases hW : subscriberPreferenceIsWhole
      ((storedPreferenceOf repos command subscriber).bind (fun sp => sp.channels))
      (queryActiveChannels repos.findMessageTemplates command.environmentId command.template)
    with _ | _
  · cases hps : command.template.preferenceSettings with
    | none =>
      rw [executeResolved_of_fallback repos command subscriber hW hps]
      simp [getNoSettingFallback, getResponse, hps]
    | some d =>
      cases hsc : (storedPreferenceOf repos command subscriber).bind (fun sp => sp.channels) with
      | none =>
        rw [executeResolved_of_template_only repos command subscriber d hW hps hsc]
        simp [getResponse, hps]
      | some s =>
        rw [executeResolved_of_merge repos command subscriber d s hW hps hsc]
        simp [getResponse, hps]
  · rw [executeResolved_of_whole repos command subscriber hW]
    simp [getResponse]

/-- C2 witness for the amended statement, at the fallback input. -/
theorem enabled_flag_amended_witness :
    (execute c2Repos c2Command).map (fun r => r.preference.enabled) =
      Except.ok
        (if subscriberPreferenceIsWhole
              ((storedPreferenceOf c2Repos c2Command exSubscriber).bind (fun sp => sp.channels))
              (queryActiveChannels c2Repos.findMessageTemplates c2Command.environmentId
                c2Command.template)
            || c2Command.template.preferenceSettings.isSome
          then ((storedPreferenceOf c2Repos c2Command exSubscriber).bind
            (fun sp => sp.enabled)).getD true
          else true) :=
  enabled_flag_amended c2Repos c2Command exSubscriber rfl

/-- C3: the key set of the returned channel map is a subset of the
resolved active channels: any channel outside the active set maps to
nothing in the response, whatever the stored and default maps contain. -/
theorem resolved_channels_subset_active (repos : Repos) (command : Command)
    (r : SubscriberPreferenceResponse) (c : Channel)
    (hok : execute repos command = Except.ok r)
    (hc : c ∉ queryActiveChannels repos.findMessageTemplates command.environmentId
      command.template) :
    r.preference.channels.get c = none := by
  cases hsub : resolveSubscriber repos command with
  | none =>
    simp only [execute, hsub] at hok
    exact Except.noConfusion hok
  | some subscriber =>
    simp only [execute, hsub, Except.ok.injEq] at hok
    subst hok
    obtain ⟨pc, hpc⟩ := executeResolved_channels_shape repos command subscriber
    rw [hpc]
    cases pc with
    | none => exact get_filterActiveChannels_none _ c
    | some p =>
      rw [get_filterActiveChannels, if_neg]
      simpa using hc

/-- C3 witness: at the wholeness input, `push` is not an active channel
and resolves to nothing. -/
theorem resolved_channels_subset_active_witness :
    ({ template := { id := "tpl-1", name := "wf", critical := true },
       preference := { enabled := true, channels := {}, overrides := none } } :
        SubscriberPreferenceResponse).preference.channels.get Channel.push = none :=
  resolved_channels_subset_active c1Repos c1Command _ Channel.push rfl (by decide)

/-- C4: with a default preference and a partial stored map (key count
different from the active-channel count), every active channel resolves to
the stored value when defined, else the default value: the stored map wins
on shared keys. -/
theorem partial_stored_overrides_default (repos : Repos) (command : Command)
    (subscriber : Subscriber) (d s : PreferenceChannels) (c : Channel)
    (hsub : resolveSubscriber repos command = some subscriber)
    (hd : command.template.preferenceSettings = some d)
    (hs : (storedPreferenceOf repos command subscriber).bind (fun sp => sp.channels) = some s)
    (hlen : s.keys.length ≠
      (queryActiveChannels repos.findMessageTemplates command.environmentId
        command.template).length)
    (hc : c ∈ queryActiveChannels repos.findMessageTemplates command.environmentId
      command.template) :
    (execute repos command).map (fun r => r.preference.channels.get c) =
      Except.ok ((s.get c).orElse (fun _ => d.get c)) := by
  have hW : subscriberPreferenceIsWhole
      ((storedPreferenceOf repos command subscriber).bind (fun sp => sp.channels))
      (queryActiveChannels repos.findMessageTemplates command.environmentId command.template) =
      false := by
    rw [hs]
    simp only [subscriberPreferenceIsWhole]
    simpa using hlen
  simp only [execute, hsub, Except.map]
  rw [executeResolved_of_merge repos command subscriber d s hW hd hs]
  simp only [getResponse]
  rw [get_filterActiveChannels, if_pos (by simpa using hc), get_assign]
  rfl

/-- C4 witness: active channels email and sms, default
`{email: true, sms: false}`, stored `{sms: true}`: sms resolves to the
stored `true`. -/
theorem partial_stored_overrides_default_witness :
    (execute c4Repos c4Command).map (fun r => r.preference.channels.get Channel.sms) =
      Except.ok (some true) :=
  partial_stored_overrides_default c4Repos c4Command exSubscriber c4Default c4Stored
    Channel.sms rfl rfl rfl (by decide) (by decide)

/-- C5: with no stored preference and no default preference, the response
is the hard-coded all-true map pruned to the active channels, with
`enabled = true`. -/
theorem no_setting_fallback_response (repos : Repos) (command : Command)
    (subscriber : Subscriber)
    (hsub : resolveSubscriber repos command = some subscriber)
    (hstored : storedPreferenceOf repos command subscriber = none)
    (hps : command.template.preferenceSettings = none) :
    execute repos command = Except.ok
      { template := mapResponseTemplate command.template
        preference :=
          { enabled := true
            channels := filterActiveChannels
              (queryActiveChannels repos.findMessageTemplates command.environmentId
                command.template)
              (some allEnabledChannels)
            overrides := none } } := by
  have hW : subscriberPreferenceIsWhole
      ((storedPreferenceOf repos command subscriber).bind (fun sp => sp.channels))
      (queryActiveChannels repos.findMessageTemplates command.environmentId command.template) =
      false := by
    rw [hstored]
    rfl
  simp only [execute, hsub]
  rw [executeResolved_of_fallback repos command subscriber hW hps]
  rfl

/-- C5 witness: single active email channel; the fallback yields
`{email: true}` with `enabled = true`. -/
theorem no_setting_fallback_response_witness :
    execute c5Repos c5Command = Except.ok
      { template := { id := "tpl-5", name := "wf5", critical := true }
        preference := { enabled := true, channels := { email := some true },
                        overrides := none } } :=
  no_setting_fallback_response c5Repos c5Command exSubscriber rfl rfl rfl

/-- C6: active-channel resolution is duplicate-free; it depends only on
the steps whose active flag is strictly true; zero active steps yield the
empty list; and when every active step carries its channel type the
result EQUALS the first-seen-order deduplication (`firstSeenDedup`) of
the step-ordered channel types — which pins down first-seen order, not
merely some duplicate-free reordering — and is in particular a sublist of
that step-ordered type list with the same members. -/
theorem active_channel_resolution (find : String → List String → List MessageTemplateEntity)
    (e : String) (t : NotificationTemplate) :
    (queryActiveChannels find e t).Nodup ∧
    queryActiveChannels find e
        { t with steps := t.steps.filter (fun step => step.active == some true) } =
      queryActiveChannels find e t ∧
    (t.steps.filter (fun step => step.active == some true) = [] →
      queryActiveChannels find e t = []) ∧
    ((∀ s ∈ t.steps.filter (fun step => step.active == some true), s.template.isSome) →
      queryActiveChannels find e t =
          firstSeenDedup ((t.steps.filter (fun step => step.active == some true)).filterMap
            (fun step => step.template.map (fun m => m.type))) ∧
        List.Sublist (queryActiveChannels find e t)
          ((t.steps.filter (fun step => step.active == some true)).filterMap
            (fun step => step.template.map (fun m => m.type))) ∧
        ∀ c, c ∈ queryActiveChannels find e t ↔
          c ∈ (t.steps.filter (fun step => step.active == some true)).filterMap
            (fun step => step.template.map (fun m => m.type))) := by
  refine ⟨?_, ?_, ?_, ?_⟩
  · simp only [queryActiveChannels]
    split
    · exact dedupKeepFirst_nodup _
    · exact dedupKeepFirst_nodup _
  · refine queryActiveChannels_congr find e _ _ ?_
    show (t.steps.filter _).filter _ = t.steps.filter _
    rw [List.filter_filter]
    simp
  · intro h
    simp only [queryActiveChannels, h]
    rfl
  · intro hall
    have hmiss : (t.steps.filter (fun step => step.active == some true)).any
        (fun step => step.template.isNone) = false := by
      rw [List.any_eq_false]
      intro s hs
      obtain ⟨a, ha⟩ := Option.isSome_iff_exists.mp (hall s hs)
      simp [ha]
    have hq : queryActiveChannels find e t =
        dedupKeepFirst ((t.steps.filter (fun step => step.active == some true)).filterMap
          (fun step => step.template.map (fun m => m.type))) := by
      simp only [queryActiveChannels, hmiss, Bool.false_eq_true, if_false]
    rw [hq]
    exact ⟨dedupKeepFirst_eq_firstSeenDedup _, dedupKeepFirst_sublist _,
      fun c => mem_dedupKeepFirst c _⟩

/-- C6 witness: a workflow with active steps email, sms, email and a
disabled push step resolves to `[email, sms]`, the first-seen-order
deduplication of its step-ordered channel types. -/
theorem active_channel_resolution_witness :
    (queryActiveChannels emptyFind "env" c6Template).Nodup ∧
    queryActiveChannels emptyFind "env" c6Template = [Channel.email, Channel.sms] ∧
    queryActiveChannels emptyFind "env" c6Template =
      firstSeenDedup ((c6Template.steps.filter (fun step => step.active == some true)).filterMap
        (fun step => step.template.map (fun m => m.type))) :=
  ⟨(active_channel_resolution emptyFind "env" c6Template).1, rfl,
   ((active_channel_resolution emptyFind "env" c6Template).2.2.2 (by decide)).1⟩

/-- C7: the implementation never populates the `overrides` metadata that
the declared response interface requires: every successful resolution
returns a preference whose `overrides` property is absent. -/
theorem overrides_never_populated (repos : Repos) (command : Command)
    (r : SubscriberPreferenceResponse)
    (hok : execute repos command = Except.ok r) :
    r.preference.overrides = none := by
  cases hsub : resolveSubscriber repos command with
  | none =>
    simp only [execute, hsub] at hok
    exact Except.noConfusion hok
  | some subscriber =>
    simp only [execute, hsub, Except.ok.injEq] at hok
    subst hok
    exact executeResolved_overrides_none repos command subscriber

/-- C7 witness: the fallback-path response carries no override
metadata. -/
theorem overrides_never_populated_witness :
    ({ template := { id := "tpl-2", name := "wf2", critical := true },
       preference := { enabled := true, channels := { email := some true },
                       overrides := none } } :
        SubscriberPreferenceResponse).preference.overrides = none :=
  overrides_never_populated c2Repos c2Command _ rfl

/-- C8: the resolution fails if and only if no subscriber entity was
passed in the command and the lookup by (environmentId, subscriberId)
finds none; a passed-in subscriber makes the error unreachable, and a
failure carries no response value. -/
theorem subscriber_not_found_iff (repos : Repos) (command : Command) :
    (∃ msg, execute repos command = Except.error msg) ↔
      (command.subscriber = none ∧
        repos.findSubscriberById command.environmentId command.subscriberId = none) := by
  constructor
  · rintro ⟨msg, hmsg⟩
    cases hsub : resolveSubscriber repos command with
    | some s =>
      simp only [execute, hsub] at hmsg
      exact Except.noConfusion hmsg
    | none =>
      unfold resolveSubscriber at hsub
      cases hcs : command.subscriber with
      | some s =>
        rw [hcs] at hsub
        simp at hsub
      | none =>
        rw [hcs] at hsub
        simp only [Option.none_orElse] at hsub
        exact ⟨rfl, hsub⟩
  · rintro ⟨h1, h2⟩
    refine ⟨"Subscriber " ++ command.subscriberId ++ " not found", ?_⟩
    have hsub : resolveSubscriber repos command = none := by
      unfold resolveSubscriber
      rw [h1, h2]
      rfl
    simp only [execute, hsub]

/-- C8 witness: with no passed-in subscriber and an empty lookup, the
resolution errors. -/
theorem subscriber_not_found_iff_witness :
    ∃ msg, execute c8Repos c8Command = Except.error msg :=
  (subscriber_not_found_iff c8Repos c8Command).mpr ⟨rfl, rfl⟩

/-- C9: a successful batch resolution returns exactly one response per
fetched active workflow, and the i-th response is the single resolution of
the i-th fetched workflow. -/
theorem batch_order_preserved (repos : Repos) (command : BatchCommand)
    (rs : List SubscriberPreferenceResponse)
    (hok : batchExecute repos command = Except.ok rs) :
    rs.length = (repos.getActiveList command.organizationId command.environmentId).length ∧
    ∀ i (hi : i < (repos.getActiveList command.organizationId command.environmentId).length)
        (hr : i < rs.length),
      execute repos (batchItemCommand command
          ((repos.getActiveList command.organizationId command.environmentId).get ⟨i, hi⟩)) =
        Except.ok (rs.get ⟨i, hr⟩) := by
  unfold batchExecute at hok
  obtain ⟨hlen, hget⟩ := promiseAll_ok _ _ hok
  rw [List.length_map] at hlen
  refine ⟨hlen, fun i hi hr => ?_⟩
  have h := hget i (by simpa using hi) hr
  rw [List.get_map] at h
  exact h

/-- C9 witness: a two-workflow batch returns the two responses in
workflow order; the first equals the first workflow's resolution. -/
theorem batch_order_preserved_witness :
    c9Results.length = (c9Repos.getActiveList "org" "env").length ∧
    execute c9Repos (batchItemCommand c9Batch
        ((c9Repos.getActiveList "org" "env").get ⟨0, by decide⟩)) =
      Except.ok (c9Results.get ⟨0, by decide⟩) :=
  ⟨(batch_order_preserved c9Repos c9Batch c9Results rfl).1,
   (batch_order_preserved c9Repos c9Batch c9Results rfl).2 0 (by decide) (by decide)⟩

/-- C10: a step whose active attribute is not the strict boolean `true`
(absent, null, or false) contributes nothing to active-channel
resolution on either path: removing such a step leaves the result
unchanged. -/
theorem inactive_step_never_contributes
    (find : String → List String → List MessageTemplateEntity) (e : String)
    (t : NotificationTemplate) (pre post : List Step) (s : Step)
    (hsteps : t.steps = pre ++ s :: post)
    (hs : s.active ≠ some true) :
    queryActiveChannels find e t =
      queryActiveChannels find e { t with steps := pre ++ post } := by
  refine queryActiveChannels_congr find e _ _ ?_
  show t.steps.filter _ = (pre ++ post).filter _
  rw [hsteps, List.filter_append, List.filter_append, List.filter_cons_of_neg]
  simpa using hs

/-- C10 witness: dropping the disabled push step from the workflow does
not change the resolved channels. -/
theorem inactive_step_never_contributes_witness :
    queryActiveChannels emptyFind "env" c10Template =
      queryActiveChannels emptyFind "env" { c10Template with steps := [emailStep] ++ [] } :=
  inactive_step_never_contributes emptyFind "env" c10Template [emailStep] [] inactivePushStep
    rfl (by decide)

end Novu
